import Mathlib

/-!
Shallow embedding of `src/tcp_skeleton.c` (an embeddable single-threaded
non-blocking TCP event loop) for verification of its specification.

Modelling conventions:
* The build modelled is the plain POSIX one: `TS_ENABLE_SSL`,
  `TS_ENABLE_IPV6`, `TS_ENABLE_HEXDUMP` and `_WIN32` are all undefined,
  and the allocator macros are the defaults.
* C machine integers are modelled as `Int`/`Nat`; 32-bit unsigned wraparound
  is written explicitly as `% 2 ^ 32` where the C code relies on it.
* Operating-system calls (`recv`, `send`, `select`, `accept`, `connect`,
  `socket`, `bind`, `listen`, `getsockopt`, allocation success) are modelled
  as oracle structures supplying each call's outcome; the embedding follows
  the C control flow exactly on those outcomes.
* The user callback (`ts_callback_t`) is a parameter `Cb` that may transform
  the connection it is invoked on (the C user may mutate the connection's
  flags and buffers from inside the callback).  Per the callback contract it
  does not touch sibling connections.  Its `int` return value is ignored by
  the core, exactly as in the C source.
* `struct ts_connection`, `struct ts_server` and the `TSF_*` flag bits are
  declared in `tcp_skeleton.h`, which is not part of `src/`; their layout is
  modelled from the specification's data model (§3, §4.3), which matches
  every use in `tcp_skeleton.c`.
-/

namespace TcpSkeleton

/-! ## Byte buffers (`struct iobuf`, `iobuf_append`, `iobuf_remove`) -/

abbrev Byte := Nat

/-- `struct iobuf`: `buf` holds the `len` valid bytes (so `len = buf.length`),
`size` is the allocated capacity. -/
structure Iobuf where
  buf : List Byte
  size : Nat
deriving DecidableEq

/-- `iobuf_append` (tcp_skeleton.c:140-165).  `reallocOk` is the outcome of
the `TS_REALLOC` call, `data` the bytes behind the source pointer, `len` the
C `int` count.  `IOBUF_RESIZE_MULTIPLIER` is the default `2.0`, so the C
expression `(int)(new_len * mult)` is exactly `2 * new_len`.  Returns the C
return value together with the updated buffer. -/
def iobuf_append (reallocOk : Bool) (io : Iobuf) (data : List Byte)
    (len : Int) : Int × Iobuf :=
  if len ≤ 0 then
    (len, io)
  else
    let n := len.toNat
    let new_len := io.buf.length + n
    if new_len < io.size then
      (len, { io with buf := io.buf ++ data.take n })
    else if reallocOk then
      (len, { buf := io.buf ++ data.take n, size := 2 * new_len })
    else
      (0, io)

/-- `iobuf_remove` (tcp_skeleton.c:167-172): drop the first `n` bytes when
`0 ≤ n ≤ len`, otherwise do nothing. -/
def iobuf_remove (io : Iobuf) (n : Int) : Iobuf :=
  if 0 ≤ n ∧ n ≤ (io.buf.length : Int) then
    { io with buf := io.buf.drop n.toNat }
  else
    io

/-! ## Error classification (`is_error`, tcp_skeleton.c:303-311) -/

/-- The `errno` values distinguished by `is_error`. -/
inductive Errno where
  | eintr
  | einprogress
  | eagain
  | ewouldblock
  | other
deriving DecidableEq

/-- The "soft" errno values excluded by `is_error`. -/
def soft_errno : Errno → Bool
  | .eintr => true
  | .einprogress => true
  | .eagain => true
  | .ewouldblock => true
  | .other => false

/-- `is_error(n)` with the captured `errno` made explicit:
`n == 0 || (n < 0 && errno not one of EINTR/EINPROGRESS/EAGAIN/EWOULDBLOCK)`. -/
def is_error (n : Int) (e : Errno) : Bool :=
  n == 0 || (decide (n < 0) && !soft_errno e)

/-! ## Connections and servers -/

/-- The `TSF_*` flag bits of a connection, modelled as independent booleans
(spec §4.3; declared in `tcp_skeleton.h`). -/
structure Flags where
  accepted : Bool
  connecting : Bool
  close_immediately : Bool
  finished_sending : Bool
  buffer_but_dont_send : Bool
deriving DecidableEq

/-- `struct ts_connection`, with the list links factored out (the doubly
linked active list is modelled as the server's `conns` list, head first,
which is what `ADD_CONNECTION`/`REMOVE_CONNECTION` maintain). -/
structure Conn where
  sock : Nat
  flags : Flags
  recv_iobuf : Iobuf
  send_iobuf : Iobuf
  last_io_time : Nat
deriving DecidableEq

/-- `struct ts_server`: `listening_valid` is `listening_sock != INVALID_SOCKET`;
`listening_sock` the descriptor number; `conns` the active list. -/
structure Server where
  listening_valid : Bool
  listening_sock : Nat
  conns : List Conn
deriving DecidableEq

/-- The `enum ts_event` values delivered to the user callback. -/
inductive Ev where
  | poll
  | accept
  | connect
  | recv
  | send
  | close
deriving DecidableEq

/-- The user callback: it may transform the connection it is invoked on.
Its integer return value is ignored by the core. -/
abbrev Cb := Ev → Conn → Conn

/-- `conn->flags |= TSF_CLOSE_IMMEDIATELY`. -/
def setCI (c : Conn) : Conn :=
  { c with flags := { c.flags with close_immediately := true } }

/-- Outcomes of the operating-system calls made during one poll pass,
indexed by socket descriptor where per-socket. -/
structure OsEnv where
  select_ready : Bool
  listener_ready : Bool
  accept_result : Option Nat
  accept_alloc_ok : Bool
  read_ready : Nat → Bool
  write_ready : Nat → Bool
  so_error : Nat → Int
  recv_result : Nat → Int
  recv_errno : Nat → Errno
  recv_data : Nat → List Byte
  recv_alloc_ok : Bool
  send_result : Nat → Int
  send_errno : Nat → Errno
  current_time : Nat

/-! ## Per-connection I/O (`read_from_socket`, `write_to_socket`, `ts_send`) -/

/-- `read_from_socket` (tcp_skeleton.c:357-424), non-SSL build.  Returns the
updated connection and the list of events emitted, in order.  On the
connect-completion branch the `getsockopt(SO_ERROR)` status is `so_error`;
on the receive branch `recv_result` is the `recv` return and `recv_data` the
bytes read. -/
def read_from_socket (cb : Cb) (env : OsEnv) (c : Conn) : Conn × List Ev :=
  if c.flags.connecting then
    let c := { c with flags := { c.flags with connecting := false } }
    let ok := env.so_error c.sock
    let c := cb .connect c
    let c := if ok ≠ 0 then setCI c else c
    (c, [.connect])
  else
    let n := env.recv_result c.sock
    let e := env.recv_errno c.sock
    if is_error n e then
      (cb .recv (setCI c), [.recv])
    else if 0 < n then
      let c := { c with recv_iobuf :=
        (iobuf_append env.recv_alloc_ok c.recv_iobuf (env.recv_data c.sock) n).2 }
      (cb .recv (cb .recv c), [.recv, .recv])
    else
      (cb .recv c, [.recv])

/-- The `send`/error-classification/drain phase of `write_to_socket`
(tcp_skeleton.c:426-447, before the finished-sending check). -/
def write_attempt (env : OsEnv) (c : Conn) : Conn :=
  let n := env.send_result c.sock
  let e := env.send_errno c.sock
  if is_error n e then setCI c
  else if 0 < n then { c with send_iobuf := iobuf_remove c.send_iobuf n }
  else c

/-- The finished-sending check of `write_to_socket` (tcp_skeleton.c:449-451):
an empty send buffer with `TSF_FINISHED_SENDING_DATA` sets
`TSF_CLOSE_IMMEDIATELY`. -/
def write_finish_check (c : Conn) : Conn :=
  if c.send_iobuf.buf.length = 0 ∧ c.flags.finished_sending then setCI c else c

/-- `write_to_socket` (tcp_skeleton.c:426-456): write attempt, finished check,
then the unconditional `TS_SEND` event. -/
def write_to_socket (cb : Cb) (env : OsEnv) (c : Conn) : Conn × List Ev :=
  (cb .send (write_finish_check (write_attempt env c)), [.send])

/-- `ts_send` (tcp_skeleton.c:458-460): append to the send buffer and return
`iobuf_append`'s return value. -/
def ts_send (reallocOk : Bool) (c : Conn) (data : List Byte) (len : Int) :
    Int × Conn :=
  let r := iobuf_append reallocOk c.send_iobuf data len
  (r.1, { c with send_iobuf := r.2 })

/-! ## The poll pass (`ts_server_poll`, tcp_skeleton.c:469-553) -/

/-- `accept_conn` (tcp_skeleton.c:269-301): one `accept` attempt.
`accept_result` is the new descriptor (or `none` for `INVALID_SOCKET`),
`accept_alloc_ok` the `TS_MALLOC` outcome.  On success the record is zeroed,
given `TSF_ACCEPTED`, linked (done by the caller below, at the list head) and
`TS_ACCEPT` is emitted. -/
def accept_conn (cb : Cb) (env : OsEnv) : Option Conn × List Ev :=
  match env.accept_result with
  | none => (none, [])
  | some sock =>
    if env.accept_alloc_ok then
      let c : Conn :=
        { sock := sock
          flags := { accepted := true, connecting := false,
                     close_immediately := false, finished_sending := false,
                     buffer_but_dont_send := false }
          recv_iobuf := ⟨[], 0⟩
          send_iobuf := ⟨[], 0⟩
          last_io_time := 0 }
      (some (cb .accept c), [.accept])
    else
      (none, [])

/-- Result of the first (pre-select) walk: the surviving connections, the
read- and write-interest sets built with `add_to_set`, and the emitted
events. -/
structure Walk1Out where
  conns : List Conn
  rset : List Nat
  wset : List Nat
  trace : List Ev

/-- First walk of the active list (tcp_skeleton.c:482-501): emit `TS_POLL`,
arm read interest unconditionally, arm write interest when connecting, arm
write interest when the send buffer is non-empty and sending is not
suppressed — else destroy a connection already marked close-immediately. -/
def walk1 (cb : Cb) : List Conn → Walk1Out
  | [] => { conns := [], rset := [], wset := [], trace := [] }
  | c :: rest =>
    let c := cb .poll c
    let w := walk1 cb rest
    let ws0 := if c.flags.connecting then [c.sock] else []
    if 0 < c.send_iobuf.buf.length ∧ ¬c.flags.buffer_but_dont_send then
      { conns := c :: w.conns, rset := c.sock :: w.rset,
        wset := ws0 ++ c.sock :: w.wset, trace := .poll :: w.trace }
    else if c.flags.close_immediately then
      { conns := w.conns, rset := c.sock :: w.rset,
        wset := ws0 ++ w.wset, trace := .poll :: .close :: w.trace }
    else
      { conns := c :: w.conns, rset := c.sock :: w.rset,
        wset := ws0 ++ w.wset, trace := .poll :: w.trace }

/-- Post-select servicing of one connection (tcp_skeleton.c:517-539):
`FD_ISSET` is membership in the interest set built by the first walk
conjoined with kernel readiness. -/
def conn_io (cb : Cb) (env : OsEnv) (rset wset : List Nat) (c : Conn) :
    Conn × List Ev :=
  let (c, t1) :=
    if rset.contains c.sock && env.read_ready c.sock then
      read_from_socket cb env { c with last_io_time := env.current_time }
    else
      (c, [])
  let (c, t2) :=
    if wset.contains c.sock && env.write_ready c.sock then
      if c.flags.connecting then
        read_from_socket cb env c
      else if ¬c.flags.buffer_but_dont_send then
        write_to_socket cb env { c with last_io_time := env.current_time }
      else
        (c, [])
    else
      (c, [])
  (c, t1 ++ t2)

/-- Second walk (post-select) over the active list. -/
def walk2 (cb : Cb) (env : OsEnv) (rset wset : List Nat) :
    List Conn → List Conn × List Ev
  | [] => ([], [])
  | c :: rest =>
    let (c', t) := conn_io cb env rset wset c
    let (cs, ts) := walk2 cb env rset wset rest
    (c' :: cs, t ++ ts)

/-- Everything `ts_server_poll` does before the reap walk, given a valid
listener: first walk, `select`, one accept, second walk.  Returns the
active list as it stands when the reap walk begins, with the trace so far. -/
def poll_pre_reap (cb : Cb) (env : OsEnv) (s : Server) : List Conn × List Ev :=
  let w := walk1 cb s.conns
  if env.select_ready then
    let acc :=
      if env.listener_ready then
        match accept_conn cb env with
        | (some c, te) =>
          ({ c with last_io_time := env.current_time } :: w.conns, te)
        | (none, te) => (w.conns, te)
      else
        (w.conns, ([] : List Ev))
    let rset := s.listening_sock :: w.rset
    let (cs, tw) := walk2 cb env rset w.wset acc.1
    (cs, w.trace ++ acc.2 ++ tw)
  else
    (w.conns, w.trace)

/-- Result of the third (reap) walk: survivors, the value accumulated in
`num_active_connections`, and the `TS_CLOSE` events emitted by `close_conn`. -/
structure Walk3Out where
  conns : List Conn
  count : Nat
  trace : List Ev

/-- Third walk (tcp_skeleton.c:542-550): destroy every connection marked
close-immediately; `num_active_connections` is incremented unconditionally,
for destroyed connections too. -/
def walk3 : List Conn → Walk3Out
  | [] => { conns := [], count := 0, trace := [] }
  | c :: rest =>
    let w := walk3 rest
    if c.flags.close_immediately then
      { conns := w.conns, count := w.count + 1, trace := .close :: w.trace }
    else
      { conns := c :: w.conns, count := w.count + 1, trace := w.trace }

/-- The values `ts_server_poll` leaves behind: its `int` return, the updated
server, and the events emitted during the pass. -/
structure PollResult where
  ret : Nat
  server : Server
  trace : List Ev

/-- `ts_server_poll` (tcp_skeleton.c:469-553).  The `milli` timeout only
feeds the `select` timeout, whose outcome the oracle supplies, so it does
not otherwise enter the model. -/
def ts_server_poll (cb : Cb) (env : OsEnv) (s : Server) (_milli : Int) :
    PollResult :=
  if s.listening_valid then
    let pre := poll_pre_reap cb env s
    let w := walk3 pre.1
    { ret := w.count, server := { s with conns := w.conns },
      trace := pre.2 ++ w.trace }
  else
    { ret := 0, server := s, trace := [] }

/-! ## Address parsing (`parse_port_string`, tcp_skeleton.c:206-239) -/

/-- `htons`: swap the two bytes of a 16-bit value. -/
def htons (x : Nat) : Nat := (x % 256) * 256 + (x / 256) % 256

/-- `ntohs` is the same byte swap. -/
def ntohs (x : Nat) : Nat := htons x

/-- `htonl`: reverse the four bytes of a 32-bit value. -/
def htonl (x : Nat) : Nat :=
  (x % 256) * 2 ^ 24 + (x / 2 ^ 8 % 256) * 2 ^ 16 +
    (x / 2 ^ 16 % 256) * 2 ^ 8 + (x / 2 ^ 24) % 256

/-- The IPv4 part of `union socket_address` (`struct sockaddr_in`): family,
port and address, the latter two in network byte order as stored. -/
structure SockAddrIn where
  sin_family : Nat
  sin_port : Nat
  sin_addr : Nat
deriving DecidableEq

/-- `AF_INET`. -/
def AF_INET : Nat := 2

/-- Decimal digits to a number. -/
def digitsToNat (ds : List Char) : Nat :=
  ds.foldl (fun a c => a * 10 + (c.toNat - 48)) 0

/-- One `%u` conversion of `sscanf`: a non-empty run of decimal digits,
converted with 32-bit unsigned wraparound.  (The `scanf` allowances for
leading whitespace and a sign are not exercised by any input considered
here and are omitted.)  Returns the value and the remaining input. -/
def scanU (cs : List Char) : Option (Nat × List Char) :=
  let ds := cs.takeWhile Char.isDigit
  if ds.isEmpty then none
  else some (digitsToNat ds % 2 ^ 32, cs.dropWhile Char.isDigit)

/-- A literal character in an `sscanf` format. -/
def scanLit (ch : Char) : List Char → Option (List Char)
  | c :: rest => if c = ch then some rest else none
  | [] => none

/-- The `"%u.%u.%u.%u:%u%n"` format: on a full match returns
`(a, b, c, d, port, len)` where `len` is the number of characters consumed
(the `%n` output). -/
def scanIPv4Port (cs : List Char) :
    Option (Nat × Nat × Nat × Nat × Nat × Nat) :=
  match scanU cs with
  | none => none
  | some (a, r1) =>
    match scanLit '.' r1 with
    | none => none
    | some r2 =>
      match scanU r2 with
      | none => none
      | some (b, r3) =>
        match scanLit '.' r3 with
        | none => none
        | some r4 =>
          match scanU r4 with
          | none => none
          | some (c, r5) =>
            match scanLit '.' r5 with
            | none => none
            | some r6 =>
              match scanU r6 with
              | none => none
              | some (d, r7) =>
                match scanLit ':' r7 with
                | none => none
                | some r8 =>
                  match scanU r8 with
                  | none => none
                  | some (port, r9) =>
                    some (a, b, c, d, port, cs.length - r9.length)

/-- `str[i]` on a NUL-terminated C string: past the end reads the
terminator. -/
def strAt (cs : List Char) (i : Nat) : Char :=
  (cs.drop i).headD (Char.ofNat 0)

/-- `parse_port_string` (tcp_skeleton.c:207-239), IPv6 disabled.  The input
is the character list of the NUL-terminated argument.  Returns the C return
value (`port <= 0xffff && str[len] == '\0'`) together with the address the
function wrote into `*sa` (zeroed first, family `AF_INET`). -/
def parse_port_string (cs : List Char) : Bool × SockAddrIn :=
  let sa0 : SockAddrIn := { sin_family := AF_INET, sin_port := 0, sin_addr := 0 }
  let r :
      Nat × Nat × SockAddrIn :=
    match scanIPv4Port cs with
    | some (a, b, c, d, port, len) =>
      (port, len,
        { sa0 with
          sin_addr := htonl ((a <<< 24 ||| b <<< 16 ||| c <<< 8 ||| d) % 2 ^ 32)
          sin_port := htons (port % 2 ^ 16) })
    | none =>
      match scanU cs with
      | some (port, rest) =>
        (port, cs.length - rest.length, { sa0 with sin_port := htons (port % 2 ^ 16) })
      | none => (0, 0, sa0)
  (decide (r.1 ≤ 0xffff) && decide (strAt cs r.2.1 = Char.ofNat 0), r.2.2)

/-! ## Bind (`open_listening_socket`, `ts_bind_to`, tcp_skeleton.c:242-267) -/

/-- Outcomes of the socket calls made while opening a listener.
`getsockname` is the kernel's report of the address actually bound. -/
structure BindOS where
  socket_ok : Bool
  setsockopt_ok : Bool
  bind_ok : SockAddrIn → Bool
  listen_ok : Bool
  getsockname : SockAddrIn → SockAddrIn

/-- `open_listening_socket` (tcp_skeleton.c:242-260): on full success the
socket is valid and `*sa` is overwritten by `getsockname`; on any failure
the socket is closed and `INVALID_SOCKET` returned, `*sa` untouched. -/
def open_listening_socket (os : BindOS) (sa : SockAddrIn) : Bool × SockAddrIn :=
  if os.socket_ok && os.setsockopt_ok && os.bind_ok sa && os.listen_ok then
    (true, os.getsockname sa)
  else
    (false, sa)

/-- `ts_bind_to` (tcp_skeleton.c:262-267): parse (discarding the parser's
return value, as the C code does), open the listener, store it on the
server, and return `ntohs(sa.sin.sin_port)`.  The descriptor number of the
new listener is abstracted; only its validity is tracked. -/
def ts_bind_to (os : BindOS) (s : Server) (cs : List Char) : Server × Nat :=
  let sa := (parse_port_string cs).2
  let r := open_listening_socket os sa
  ({ s with listening_valid := r.1 }, ntohs r.2.sin_port)

/-! ## Outbound connect (`ts_connect`, tcp_skeleton.c:555-602) -/

/-- Outcomes of the calls made by `ts_connect`. -/
structure ConnectEnv where
  host_ok : Bool
  socket_ok : Bool
  new_sock : Nat
  connect_ret : Int
  connect_errno : Errno
  malloc_ok : Bool

/-- What `ts_connect` left behind: its `int` return, whether a socket was
created by `socket(2)`, whether that socket was closed again before
returning, and whether a connection record was linked. -/
structure ConnectResult where
  ret : Nat
  socket_created : Bool
  socket_closed : Bool
  conn_linked : Bool
deriving DecidableEq

/-- `ts_connect` (tcp_skeleton.c:555-602), non-SSL build (so a `use_ssl`
request fails after the socket is created).  The caller's `param` pointer is
not modelled; the new record is zeroed and given `TSF_CONNECTING`. -/
def ts_connect (env : ConnectEnv) (s : Server) (use_ssl : Bool) :
    ConnectResult × Server :=
  if ¬env.host_ok ∨ ¬env.socket_ok then
    ({ ret := 0, socket_created := false, socket_closed := false,
       conn_linked := false }, s)
  else if use_ssl then
    ({ ret := 0, socket_created := true, socket_closed := false,
       conn_linked := false }, s)
  else if is_error env.connect_ret env.connect_errno then
    ({ ret := 0, socket_created := true, socket_closed := false,
       conn_linked := false }, s)
  else if ¬env.malloc_ok then
    ({ ret := 0, socket_created := true, socket_closed := true,
       conn_linked := false }, s)
  else
    let c : Conn :=
      { sock := env.new_sock
        flags := { accepted := false, connecting := true,
                   close_immediately := false, finished_sending := false,
                   buffer_but_dont_send := false }
        recv_iobuf := ⟨[], 0⟩
        send_iobuf := ⟨[], 0⟩
        last_io_time := 0 }
    ({ ret := 1, socket_created := true, socket_closed := false,
       conn_linked := true }, { s with conns := c :: s.conns })

/-! ## Concrete fixtures used by the theorems below -/

/-- The identity callback: a user handler that mutates nothing. -/
def cbId : Cb := fun _ c => c

/-- All flag bits clear (a freshly zeroed record). -/
def flagsNone : Flags :=
  { accepted := false, connecting := false, close_immediately := false,
    finished_sending := false, buffer_but_dont_send := false }

/-- A quiet kernel: `select` reports nothing ready, reads and writes would
block. -/
def envBase : OsEnv :=
  { select_ready := false, listener_ready := false, accept_result := none,
    accept_alloc_ok := true, read_ready := fun _ => false,
    write_ready := fun _ => false, so_error := fun _ => 0,
    recv_result := fun _ => -1, recv_errno := fun _ => .eagain,
    recv_data := fun _ => [], recv_alloc_ok := true,
    send_result := fun _ => -1, send_errno := fun _ => .eagain,
    current_time := 0 }

/-- A kernel whose `recv` yields the five bytes `[1,2,3,4,5]`. -/
def envRecv5 : OsEnv :=
  { envBase with
      recv_result := fun _ => 5
      recv_errno := fun _ => .other
      recv_data := fun _ => [1, 2, 3, 4, 5] }

/-- A kernel whose `send` accepts exactly two bytes. -/
def envSend2 : OsEnv :=
  { envBase with
      send_result := fun _ => 2
      send_errno := fun _ => .other }

/-- A connection already marked close-immediately that still has pending
send data (so the pre-select walk keeps it). -/
def c0 : Conn :=
  { sock := 3, flags := { flagsNone with close_immediately := true },
    recv_iobuf := ⟨[], 0⟩, send_iobuf := ⟨[9], 2⟩, last_io_time := 0 }

/-- An idle established connection. -/
def cRead : Conn :=
  { sock := 2, flags := flagsNone, recv_iobuf := ⟨[], 0⟩,
    send_iobuf := ⟨[], 0⟩, last_io_time := 0 }

/-- A connection that has signalled end-of-stream with two bytes left to
flush. -/
def cW : Conn :=
  { sock := 5, flags := { flagsNone with finished_sending := true },
    recv_iobuf := ⟨[], 0⟩, send_iobuf := ⟨[7, 7], 4⟩, last_io_time := 0 }

/-- A server with a listener and the one doomed connection `c0`. -/
def s0 : Server := { listening_valid := true, listening_sock := 0, conns := [c0] }

/-- A server with no listener but with the doomed connection `c0` on its
active list (as produced by `ts_connect` before any bind). -/
def sNoL : Server := { listening_valid := false, listening_sock := 0, conns := [c0] }

/-- A server with a listener and one healthy connection. -/
def sW : Server := { listening_valid := true, listening_sock := 0, conns := [cRead] }

/-- A freshly initialized server. -/
def emptyServer : Server := { listening_valid := false, listening_sock := 0, conns := [] }

/-- A kernel on which every socket call of the bind path succeeds and
`getsockname` confirms the requested address. -/
def osAllOk : BindOS :=
  { socket_ok := true, setsockopt_ok := true, bind_ok := fun _ => true,
    listen_ok := true, getsockname := fun sa => sa }

/-- A `ts_connect` run whose `connect(2)` fails synchronously with a hard
error (for example `ECONNREFUSED`). -/
def envConnFail : ConnectEnv :=
  { host_ok := true, socket_ok := true, new_sock := 4, connect_ret := -1,
    connect_errno := .other, malloc_ok := true }

/-- The input string `0`. -/
def strZero : List Char := ['0']

/-- The input string `999.0.0.1:80` (first octet out of range). -/
def addr999 : List Char :=
  ['9', '9', '9', '.', '0', '.', '0', '.', '1', ':', '8', '0']

/-- The input string `1.2.3:80`, rejected by the parser. -/
def addrBadQuad : List Char := ['1', '.', '2', '.', '3', ':', '8', '0']

/-- The input string `80x`, rejected by the parser. -/
def addr80x : List Char := ['8', '0', 'x']

/-- The input string `80`, accepted by the parser. -/
def addr80 : List Char := ['8', '0']

/-! ## Helper lemmas about the reap walk -/

/-- The reap walk's `num_active_connections` counts every connection it
visits, destroyed or not. -/
theorem walk3_count (l : List Conn) : (walk3 l).count = l.length := by
  induction l with
  | nil => rfl
  | cons c rest ih =>
    by_cases h : c.flags.close_immediately <;> simp [walk3, h, ih]

/-- The reap walk's survivors are exactly the visited connections without
the close-immediately flag. -/
theorem walk3_conns (l : List Conn) :
    (walk3 l).conns = l.filter (fun c => !c.flags.close_immediately) := by
  induction l with
  | nil => rfl
  | cons c rest ih =>
    by_cases h : c.flags.close_immediately <;> simp [walk3, h, ih]

/-! ## Claim C1 -/

/-- C1, counterexample: a server holding one connection that is marked
close-immediately but still has send data pending.  Nothing is ready, so the
connection survives to the reap walk and is destroyed there — yet
`ts_server_poll` returns 1 while the active list it leaves behind is empty.
This refutes the claim that connections destroyed during the reap walk are
not counted among the survivors returned. -/
theorem ts_server_poll_counts_destroyed_cex :
    (ts_server_poll cbId envBase s0 0).ret = 1 ∧
    (ts_server_poll cbId envBase s0 0).server.conns = [] := by
  decide

/-- C1, amended: for every callback, kernel behaviour, server with a
listener and timeout, `ts_server_poll` returns the number of connections on
the active list at the start of the third (reap) walk — counting the
connections destroyed during that walk — and the surviving list is that
list minus the connections flagged close-immediately. -/
theorem ts_server_poll_ret_counts_reap_input (cb : Cb) (env : OsEnv)
    (s : Server) (milli : Int) (h : s.listening_valid = true) :
    (ts_server_poll cb env s milli).ret = (poll_pre_reap cb env s).1.length ∧
    (ts_server_poll cb env s milli).server.conns
      = (poll_pre_reap cb env s).1.filter (fun c => !c.flags.close_immediately) := by
  simp [ts_server_poll, h, walk3_count, walk3_conns]

/-- C1, witness for the amended theorem at a concrete server. -/
theorem ts_server_poll_ret_counts_reap_input_witness :
    s0.listening_valid = true ∧
    ((ts_server_poll cbId envBase s0 0).ret = (poll_pre_reap cbId envBase s0).1.length ∧
     (ts_server_poll cbId envBase s0 0).server.conns
       = (poll_pre_reap cbId envBase s0).1.filter (fun c => !c.flags.close_immediately)) :=
  ⟨rfl, ts_server_poll_ret_counts_reap_input cbId envBase s0 0 rfl⟩

/-! ## Claim C2 -/

/-- C2: on a readable, non-connecting connection whose `recv` yields five
fresh bytes, `read_from_socket` emits `TS_RECV` twice, not once — once in
the `n > 0` branch and once unconditionally at the end of the function —
and on a would-block read that yields no bytes it still emits one
`TS_RECV`.  This contradicts the claim that `RECV` fires exactly once per
non-empty read and never for an empty read. -/
theorem read_from_socket_double_recv :
    (read_from_socket cbId envRecv5 cRead).2 = [.recv, .recv] ∧
    (read_from_socket cbId envRecv5 cRead).1.recv_iobuf.buf = [1, 2, 3, 4, 5] ∧
    (read_from_socket cbId envBase cRead).2 = [.recv] ∧
    (read_from_socket cbId envBase cRead).1.recv_iobuf.buf = [] := by
  decide

/-! ## Claim C3 -/

/-- C3: the input `0` parses as port zero with the whole string consumed,
and `parse_port_string` returns success, because its final check
`port <= 0xffff` does not exclude zero — contradicting both the claim and
the code's own comment that port 0 marks a parse failure. -/
theorem parse_port_string_accepts_port_zero :
    (parse_port_string strZero).1 = true ∧
    (parse_port_string strZero).2.sin_port = 0 := by
  decide

/-! ## Claim C4 -/

/-- C4, counterexample: the parser rejects `1.2.3:80`, yet on a kernel where
every socket call succeeds `ts_bind_to` opens a listening socket on the
port 1 left behind by the failed scan and returns 1, not 0. -/
theorem ts_bind_to_rejected_string_cex :
    (parse_port_string addrBadQuad).1 = false ∧
    (ts_bind_to osAllOk emptyServer addrBadQuad).2 = 1 ∧
    (ts_bind_to osAllOk emptyServer addrBadQuad).1.listening_valid = true := by
  decide

/-- C4, amended: `ts_bind_to` discards the parser's verdict entirely; its
result — return value and listener stored on the server — is a function of
the socket address the parser filled in alone, so two strings producing the
same address behave identically even when one is rejected and the other
accepted. -/
theorem ts_bind_to_ignores_parser_verdict (os : BindOS) (s : Server)
    (a b : List Char) (h : (parse_port_string a).2 = (parse_port_string b).2) :
    ts_bind_to os s a = ts_bind_to os s b := by
  unfold ts_bind_to
  rw [h]

/-- C4, witness: the rejected `80x` and the accepted `80` leave the same
parsed address and so bind identically. -/
theorem ts_bind_to_ignores_parser_verdict_witness :
    (parse_port_string addr80x).2 = (parse_port_string addr80).2 ∧
    ts_bind_to osAllOk emptyServer addr80x = ts_bind_to osAllOk emptyServer addr80 :=
  ⟨by decide, ts_bind_to_ignores_parser_verdict osAllOk emptyServer addr80x addr80 (by decide)⟩

/-! ## Claim C5 -/

/-- C5: when `connect(2)` reports a synchronous hard error, `ts_connect`
returns failure and links no connection record — but it returns without
closing the socket it created, leaking the descriptor, contrary to the
claim (the adjacent allocation-failure branch does close it). -/
theorem ts_connect_hard_error_leaks_socket :
    (ts_connect envConnFail emptyServer false).1
      = { ret := 0, socket_created := true, socket_closed := false,
          conn_linked := false } ∧
    (ts_connect envConnFail emptyServer false).2 = emptyServer := by
  decide

/-! ## Claim C6 -/

/-- C6, counterexample: on a server with no listener, `ts_server_poll`
returns immediately (tcp_skeleton.c:476) without any reap walk, so a
connection marked close-immediately remains on the active list when the
call returns. -/
theorem ts_server_poll_no_listener_cex :
    (ts_server_poll cbId envBase sNoL 7).server.conns = [c0] ∧
    c0.flags.close_immediately = true := by
  decide

/-- C6, amended: provided the server has a listening socket, no connection
remaining on the active list when `ts_server_poll` returns has the
close-immediately flag set: every connection observed with the flag during
the reap walk was destroyed and unlinked. -/
theorem ts_server_poll_reaps_close_immediately (cb : Cb) (env : OsEnv)
    (s : Server) (milli : Int) (c : Conn) (h : s.listening_valid = true)
    (hc : c ∈ (ts_server_poll cb env s milli).server.conns) :
    c.flags.close_immediately = false := by
  simp [ts_server_poll, h, walk3_conns, List.mem_filter] at hc
  exact hc.2

/-- C6, witness: a healthy connection surviving a quiet pass indeed carries
no close-immediately flag. -/
theorem ts_server_poll_reaps_close_immediately_witness :
    sW.listening_valid = true ∧
    cRead ∈ (ts_server_poll cbId envBase sW 0).server.conns ∧
    cRead.flags.close_immediately = false :=
  ⟨rfl, by decide,
   ts_server_poll_reaps_close_immediately cbId envBase sW 0 cRead rfl (by decide)⟩

/-! ## Claim C7 -/

/-- C7, counterexample: called with a negative count, `iobuf_append` (and
`ts_send`, which delegates to it) falls through the empty `len <= 0` branch
and returns the original `len` — here `-2`, not the zero the claim
requires. -/
theorem iobuf_append_negative_len_cex :
    iobuf_append true ⟨[], 0⟩ [] (-2) = (-2, (⟨[], 0⟩ : Iobuf)) ∧
    (ts_send true cRead [] (-2)).1 = -2 ∧
    ((-2 : Int) ≠ 0) := by
  decide

/-- C7, amended: for `n ≤ 0` the buffer is unchanged and the call returns
`n` itself (zero only when `n = 0`); for `n > 0`, with at least `n` source
bytes available, the returned value `k` equals exactly the number of bytes
the buffer's length grew by — `n` when the copy or reallocation succeeds
and zero, with the buffer unmodified, when allocation fails — and `ts_send`
delegates to the append on the connection's send buffer. -/
theorem iobuf_append_growth (reallocOk : Bool) (io : Iobuf) (data : List Byte)
    (n : Int) (hdata : n.toNat ≤ data.length) :
    (n ≤ 0 → iobuf_append reallocOk io data n = (n, io)) ∧
    (0 < n →
      (iobuf_append reallocOk io data n).2.buf.length
        = io.buf.length + (iobuf_append reallocOk io data n).1.toNat ∧
      ((iobuf_append reallocOk io data n).1 = n ∨
       ((iobuf_append reallocOk io data n).1 = 0 ∧
        (iobuf_append reallocOk io data n).2 = io))) ∧
    (∀ c : Conn,
      (ts_send reallocOk c data n).1 = (iobuf_append reallocOk c.send_iobuf data n).1 ∧
      (ts_send reallocOk c data n).2.send_iobuf
        = (iobuf_append reallocOk c.send_iobuf data n).2) := by
  refine ⟨fun h => by simp [iobuf_append, h], fun h => ?_, fun c => by simp [ts_send]⟩
  have h0 : ¬n ≤ 0 := not_le.mpr h
  simp only [iobuf_append, if_neg h0]
  by_cases h1 : io.buf.length + n.toNat < io.size
  · simp [h1, List.length_take, Nat.min_eq_left hdata]
  · by_cases h2 : reallocOk
    · simp [h1, h2, List.length_take, Nat.min_eq_left hdata]
    · simp [h1, h2]

/-- C7, witness for the amended theorem: appending two bytes to an empty
buffer grows it by exactly the returned count. -/
theorem iobuf_append_growth_witness :
    (0 : Int) < 2 ∧
    ((iobuf_append true ⟨[], 0⟩ [1, 2] 2).2.buf.length
       = (⟨[], 0⟩ : Iobuf).buf.length + (iobuf_append true ⟨[], 0⟩ [1, 2] 2).1.toNat ∧
     ((iobuf_append true ⟨[], 0⟩ [1, 2] 2).1 = 2 ∨
      ((iobuf_append true ⟨[], 0⟩ [1, 2] 2).1 = 0 ∧
       (iobuf_append true ⟨[], 0⟩ [1, 2] 2).2 = (⟨[], 0⟩ : Iobuf)))) :=
  ⟨by decide, (iobuf_append_growth true ⟨[], 0⟩ [1, 2] 2 (by decide)).2.1 (by decide)⟩

/-! ## Claim C8 -/

/-- C8: for any callback that never clears an already-set close-immediately
flag (the callback contract offers no way to clear it), `write_to_socket`
emits `TS_SEND` exactly once, after the write attempt, whatever its
outcome; and whenever the send buffer is empty after the write attempt
while finished-sending is set, the connection ends the pass with
close-immediately set. -/
theorem write_to_socket_finished_sending_close (cb : Cb) (env : OsEnv)
    (c : Conn)
    (hmono : ∀ e x, x.flags.close_immediately = true →
      (cb e x).flags.close_immediately = true) :
    (write_to_socket cb env c).2 = [.send] ∧
    ((write_attempt env c).send_iobuf.buf = [] →
     (write_attempt env c).flags.finished_sending = true →
     (write_to_socket cb env c).1.flags.close_immediately = true) := by
  refine ⟨rfl, fun h1 h2 => ?_⟩
  show (cb .send (write_finish_check (write_attempt env c))).flags.close_immediately = true
  apply hmono
  simp [write_finish_check, h1, h2, setCI]

/-- C8, witness: a finished connection whose two pending bytes are fully
written is marked close-immediately and receives its `TS_SEND`. -/
theorem write_to_socket_finished_sending_close_witness :
    (write_to_socket cbId envSend2 cW).2 = [.send] ∧
    (write_to_socket cbId envSend2 cW).1.flags.close_immediately = true :=
  ⟨(write_to_socket_finished_sending_close cbId envSend2 cW (fun _ _ h => h)).1,
   (write_to_socket_finished_sending_close cbId envSend2 cW (fun _ _ h => h)).2
     (by decide) (by decide)⟩

/-! ## Claim C9 -/

/-- C9: an `iobuf_append` that returns a positive count always leaves the
length strictly below the capacity, and an append that would fill the
buffer exactly to capacity fails the strict `new_len < size` test and, when
reallocation succeeds, grows the capacity to `(length + n) * 2`. -/
theorem iobuf_append_never_full (reallocOk : Bool) (io : Iobuf)
    (data : List Byte) (n : Int) :
    (0 < (iobuf_append reallocOk io data n).1 →
      (iobuf_append reallocOk io data n).2.buf.length
        < (iobuf_append reallocOk io data n).2.size) ∧
    (0 < n → io.buf.length + n.toNat = io.size → reallocOk = true →
      (iobuf_append reallocOk io data n).2.size = 2 * io.size) := by
  constructor
  · intro hpos
    by_cases h0 : n ≤ 0
    · simp [iobuf_append, h0] at hpos
      omega
    · simp only [iobuf_append, if_neg h0] at hpos ⊢
      have ht : (data.take n.toNat).length ≤ n.toNat := by
        simp [List.length_take]
      by_cases h1 : io.buf.length + n.toNat < io.size
      · simp only [if_pos h1] at hpos ⊢
        simp only [List.length_append]
        omega
      · by_cases h2 : reallocOk
        · simp only [if_neg h1, h2, if_pos] at hpos ⊢
          simp only [List.length_append]
          omega
        · simp [if_neg h1, h2] at hpos
  · intro hn hfill hok
    have h0 : ¬n ≤ 0 := not_le.mpr hn
    have h1 : ¬io.buf.length + n.toNat < io.size := by omega
    simp [iobuf_append, h0, h1, hok]
    omega

/-- C9, witness: appending one byte to a buffer of length 1 and capacity 2
(an exact fill) reallocates to capacity 4 and leaves length 2 < 4. -/
theorem iobuf_append_never_full_witness :
    (0 : Int) < (iobuf_append true ⟨[7], 2⟩ [8] 1).1 ∧
    ((iobuf_append true (⟨[7], 2⟩ : Iobuf) [8] 1).2.buf.length
       < (iobuf_append true (⟨[7], 2⟩ : Iobuf) [8] 1).2.size) ∧
    (iobuf_append true (⟨[7], 2⟩ : Iobuf) [8] 1).2.size
      = 2 * (⟨[7], 2⟩ : Iobuf).size :=
  ⟨by decide,
   (iobuf_append_never_full true ⟨[7], 2⟩ [8] 1).1 (by decide),
   (iobuf_append_never_full true ⟨[7], 2⟩ [8] 1).2 (by decide) (by decide) rfl⟩

/-! ## Claim C10 -/

/-- C10: the parser performs no range check on dotted-quad octets: the
input `999.0.0.1:80`, whose first octet exceeds 255, is accepted — the
port is valid and the whole string consumed — and the oversized octet is
folded into the 32-bit address by the shift-and-or expression modulo
`2 ^ 32`. -/
theorem parse_port_string_no_octet_range_check :
    (parse_port_string addr999).1 = true ∧
    (parse_port_string addr999).2.sin_addr
      = htonl ((999 <<< 24 ||| 0 <<< 16 ||| 0 <<< 8 ||| 1) % 2 ^ 32) ∧
    (parse_port_string addr999).2.sin_port = htons 80 ∧ 255 < 999 := by
  decide

end TcpSkeleton
